import Mathlib

/-!
Shallow embedding of the HAR performance-analysis engine in
`analysis.py` (class `HARPerformanceAnalyzer`).

Python dictionaries read with `.get(key, default)` are modelled as
structures with `Option`-typed fields (`none` = key absent), and a
missing nested object (`entry.get("request", {})`) is modelled by an
explicit empty-structure default, which is observationally identical
through `.get`.  Python numbers (ints and floats) are modelled as exact
rationals `ℚ`; heterogeneous cells that may hold a number or a string
(pandas object columns / dict values) are modelled by `PyVal`.
-/

set_option maxRecDepth 4000

/-- A Python value that is either a number or a string (the two kinds of
values that flow through the summary dictionary and page-timing dict). -/
inductive PyVal where
  | num (q : ℚ)
  | str (s : String)
deriving DecidableEq

/-! ### Python string primitives

`str.split(sep)` for a non-empty separator scans left to right taking
non-overlapping occurrences; `sub in s` tests substring occurrence;
`s[-50:]` keeps the last 50 characters.  These are modelled on `List Char`
so that all proofs are plain structural list reasoning. -/

/-- Python `sub in s` (substring occurrence test) on char lists. -/
def occursSub (sub : List Char) : List Char → Bool
  | [] => sub.isEmpty
  | c :: cs => sub.isPrefixOf (c :: cs) || occursSub sub cs

/-- Python `s.split(sep)` for a one-character separator `x`. -/
def split1 (x : Char) : List Char → List (List Char)
  | [] => [[]]
  | c :: cs =>
    if c = x then [] :: split1 x cs
    else
      match split1 x cs with
      | [] => [[c]]
      | p :: ps => (c :: p) :: ps

/-- Python `s.split(sep)` for a two-character separator `x,y`:
left-to-right scan over non-overlapping occurrences. -/
def split2 (x y : Char) : List Char → List (List Char)
  | [] => [[]]
  | [c] => [[c]]
  | a :: b :: rest =>
    if a = x ∧ b = y then
      [] :: split2 x y rest
    else
      match split2 x y (b :: rest) with
      | [] => [[a]]
      | p :: ps => (a :: p) :: ps

/-- Python `sub in s` on `String`s. -/
def pyIn (sub s : String) : Bool := occursSub sub.toList s.toList

/-- Python `s.endswith(suffix)`. -/
def pyEndsWith (s suffix : String) : Bool := suffix.toList.isSuffixOf s.toList

/-- Python `s[-n:]` (last `n` characters, whole string when shorter). -/
def strLastChars (n : Nat) (s : String) : String :=
  String.mk (s.toList.drop (s.toList.length - n))

/-- Python `s.split(sep)[0]` for one-character `sep` (on `String`s). -/
def strBefore (x : Char) (s : String) : String :=
  String.mk ((split1 x s.toList).headD [])

/-- Python `round(q, 2)`: round to 2 decimal places, ties to even
(Python's `round` is round-half-to-even; modelled on exact rationals). -/
def roundHalfEven (q : ℚ) : ℤ :=
  let f := ⌊q⌋
  let frac := q - f
  if frac < 1/2 then f
  else if 1/2 < frac then f + 1
  else if f % 2 = 0 then f else f + 1

/-- `round(q, 2)` from the source (all duration/size outputs). -/
def round2 (q : ℚ) : ℚ := (roundHalfEven (q * 100) : ℚ) / 100

/-- Python number → string for f-string interpolation.  Integers render as
their digits; values with at most two decimal places (the only
non-integers the pipeline produces, via `round(_, 2)`) render in decimal
notation; anything else falls back to the rational's own notation. -/
def fmtNum (q : ℚ) : String :=
  if q.den = 1 then toString q.num
  else if (q * 100).den = 1 then
    let sign := if q < 0 then "-" else ""
    let n := (q * 100).num.natAbs
    let ip := toString (n / 100)
    let fp := n % 100
    if fp % 10 = 0 then sign ++ ip ++ "." ++ toString (fp / 10)
    else if fp < 10 then sign ++ ip ++ ".0" ++ toString fp
    else sign ++ ip ++ "." ++ toString fp
  else toString q

/-! ### Raw trace entry model (`log.entries[i]`) -/

/-- `entry["request"]`. -/
structure Request where
  url : Option String
  method : Option String
deriving DecidableEq

/-- `entry["response"]["content"]`. -/
structure Content where
  mimeType : Option String
deriving DecidableEq

/-- `entry["response"]`. -/
structure Response where
  status : Option ℤ
  headersSize : Option ℚ
  bodySize : Option ℚ
  content : Option Content
deriving DecidableEq

/-- `entry["timings"]`: the six phase timings (ms, `-1` = unavailable). -/
structure Timings where
  dns : Option ℚ
  connect : Option ℚ
  ssl : Option ℚ
  send : Option ℚ
  wait : Option ℚ
  receive : Option ℚ
deriving DecidableEq

/-- One raw HAR entry, with every nested object possibly absent. -/
structure RawEntry where
  request : Option Request
  response : Option Response
  timings : Option Timings
  time : Option ℚ
deriving DecidableEq

/-- The empty dict `{}` substituted by `entry.get("request", {})`. -/
def emptyRequest : Request := ⟨none, none⟩

/-- The empty dict `{}` substituted by `response.get("content", {})`. -/
def emptyContent : Content := ⟨none⟩

/-- The empty dict `{}` substituted by `entry.get("response", {})`. -/
def emptyResponse : Response := ⟨none, none, none, none⟩

/-- The empty dict `{}` substituted by `entry.get("timings", {})`. -/
def emptyTimings : Timings := ⟨none, none, none, none, none, none⟩

/-- `entry.get("request", {}).get("url", "")` (line 95). -/
def entryUrl (e : RawEntry) : String := (e.request.getD emptyRequest).url.getD ""

/-! ### `_get_resource_type` (lines 55-84) -/

/-- `_get_resource_type(url, content_type)`: resource category from the
declared content type, falling back to the URL extension.  `content_type`
may be absent/None; the source replaces any falsy value by `""`
(lines 57-58), modelled by `Option.getD ""`. -/
def _get_resource_type (url : String) (content_type : Option String) : String :=
  let ct := content_type.getD ""
  if pyIn "text/html" ct then "HTML"
  else if pyIn "text/css" ct then "CSS"
  else if pyIn "application/javascript" ct || pyIn "text/javascript" ct then "JS"
  else if pyIn "image/" ct then "图片"
  else if pyIn "font/" ct || pyIn "application/font" ct then "字体"
  else if pyIn "application/json" ct || pyEndsWith url ".json" then "JSON接口"
  else if pyIn "video/" ct then "视频"
  else if pyEndsWith url.toLower ".js" || pyEndsWith url.toLower ".jsx"
       || pyEndsWith url.toLower ".ts" || pyEndsWith url.toLower ".tsx" then "JS"
  else if pyEndsWith url.toLower ".css" then "CSS"
  else if pyEndsWith url.toLower ".jpg" || pyEndsWith url.toLower ".jpeg"
       || pyEndsWith url.toLower ".png" || pyEndsWith url.toLower ".gif"
       || pyEndsWith url.toLower ".svg" || pyEndsWith url.toLower ".webp" then "图片"
  else if pyEndsWith url.toLower ".woff" || pyEndsWith url.toLower ".woff2"
       || pyEndsWith url.toLower ".ttf" || pyEndsWith url.toLower ".eot" then "字体"
  else "其他"

/-! ### Domain extraction (lines 96-102) -/

/-- Lines 96-102: `url.split("//")[-1].split("/")[0]` when `"//" in url`,
else `"unknown"`.  (The surrounding `try/except` never fires: all the
operations involved are total.) -/
def extractDomain (url : String) : String :=
  if occursSub ['/', '/'] url.toList then
    String.mk ((split1 '/' ((split2 '/' '/' url.toList).getLastD [])).headD [])
  else "unknown"

/-! ### `analyze_request_details` (lines 86-140) -/

/-- One row of the request DataFrame (keys of the dict built at
lines 121-138, in source order). -/
structure RequestRecord where
  idx : Nat                -- 序号
  url : String             -- 资源URL
  resourceType : String    -- 资源类型
  method : String          -- 请求方法
  status : ℤ               -- 状态码
  domain : String          -- 域名
  totalTime : ℚ            -- 总耗时(ms)
  dnsTime : ℚ              -- DNS解析(ms)
  tcpTime : ℚ              -- TCP连接(ms)
  sslTime : ℚ              -- SSL握手(ms)
  sendTime : ℚ             -- 请求发送(ms)
  waitTime : ℚ             -- 服务器等待(ms)
  receiveTime : ℚ          -- 响应接收(ms)
  sizeKB : ℚ               -- 资源大小(KB)
  isSlow : String          -- 慢资源标记 ("是"/"否")
  isError : String         -- 是否错误请求 ("是"/"否")
deriving DecidableEq

/-- Lines 105-110: `timing.get(k, -1) if timing.get(k, -1) != -1 else 0`.
An absent key yields the `-1` default and hence `0`; a present `-1`
yields `0`; any other present value passes through unchanged. -/
def tVal (o : Option ℚ) : ℚ :=
  match o with
  | none => 0
  | some v => if v = -1 then 0 else v

/-- The loop body of `analyze_request_details` (lines 89-138) for one
entry, at 1-based index `idx`. -/
def processEntry (idx : Nat) (entry : RawEntry) : RequestRecord :=
  let request := entry.request.getD emptyRequest
  let response := entry.response.getD emptyResponse
  let timing := entry.timings.getD emptyTimings
  let url := request.url.getD ""
  let domain := extractDomain url
  let dns_time := tVal timing.dns
  let tcp_time := tVal timing.connect
  let ssl_time := tVal timing.ssl
  let send_time := tVal timing.send
  let wait_time := tVal timing.wait
  let receive_time := tVal timing.receive
  let total_time := entry.time.getD 0
  let headers_size := response.headersSize.getD 0
  let body_size := response.bodySize.getD 0
  let total_size := if 0 < headers_size + body_size
    then (headers_size + body_size) / 1024 else 0
  let is_slow := if 500 < total_time then "是" else "否"
  { idx := idx
    url := url
    resourceType :=
      _get_resource_type url
        (some ((response.content.getD emptyContent).mimeType.getD ""))
    method := request.method.getD ""
    status := response.status.getD 0
    domain := domain
    totalTime := round2 total_time
    dnsTime := round2 dns_time
    tcpTime := round2 tcp_time
    sslTime := round2 ssl_time
    sendTime := round2 send_time
    waitTime := round2 wait_time
    receiveTime := round2 receive_time
    sizeKB := round2 total_size
    isSlow := is_slow
    isError := if 400 ≤ response.status.getD 0 then "是" else "否" }

/-- The `for idx, entry in enumerate(self.entries, 1)` loop, carrying the
running 1-based index. -/
def analyzeFrom : Nat → List RawEntry → List RequestRecord
  | _, [] => []
  | idx, e :: rest => processEntry idx e :: analyzeFrom (idx + 1) rest

/-- `analyze_request_details` (lines 86-140): one `RequestRecord` per raw
entry, enumerated from 1. -/
def analyze_request_details (entries : List RawEntry) : List RequestRecord :=
  analyzeFrom 1 entries

/-! ### `analyze_page_timings` (lines 142-201) -/

/-- `page.pageTimings.get("_firstContentfulPaint", 0)` wrapped in
`try/except` (lines 173-176): the key may be absent (→ default `0`), the
access itself may raise (→ caught, `0`), or a value may be present. -/
inductive FcpRead where
  | raises
  | missing
  | val (q : ℚ)
deriving DecidableEq

/-- The page-level navigation data reachable from `self.pages[0]`:
`page.url`, `page.timings` (a dict), and the FCP extension field. -/
structure Page where
  url : String
  navigationStart : Option ℚ
  domContentLoadedEventEnd : Option ℚ
  loadEventEnd : Option ℚ
  fcp : FcpRead
deriving DecidableEq

/-- An element of `self.pages`: either readable navigation data, or data
whose reading raises (any haralyzer/shape failure inside the `try` block
of lines 163-185, caught at line 186). -/
inductive PageData where
  | ok (p : Page)
  | malformed
deriving DecidableEq

/-- The three shapes `analyze_page_timings` can return: the full dict of
lines 178-185, the degraded dict of lines 150-157/192-199 (first entry's
URL, every other field the string `"不可用"`), and the minimal dict of
lines 159-161/201 (`{"提示": ...}`).  In the full shape the
navigation-start cell is kept as the raw millisecond value; the source
renders it as a formatted wall-clock string (or `"无"`), a
presentation-only step with no further consumers. -/
inductive PageTimingsResult where
  | full (url : String) (navStart : ℚ) (domReady loadEvent fcp firstScreen : PyVal)
  | degraded (url : String)
  | minimal
deriving DecidableEq

/-- `first_entry.get("request", {}).get("url", "Unknown URL")`
(lines 149/191). -/
def entryUrlOr (e : RawEntry) : String :=
  (e.request.getD emptyRequest).url.getD "Unknown URL"

/-- The `try`-block body (lines 163-185) on readable first-page data. -/
def pageFull (p : Page) : PageTimingsResult :=
  let navigation_start := p.navigationStart.getD 0
  let dom_content_loaded :=
    if 0 < navigation_start then p.domContentLoadedEventEnd.getD 0 - navigation_start else 0
  let load_event :=
    if 0 < navigation_start then p.loadEventEnd.getD 0 - navigation_start else 0
  let first_contentful_paint :=
    match p.fcp with
    | .raises => 0
    | .missing => 0
    | .val q => q
  PageTimingsResult.full p.url navigation_start
    (PyVal.num (if 0 ≤ dom_content_loaded then round2 dom_content_loaded else 0))
    (PyVal.num (if 0 ≤ load_event then round2 load_event else 0))
    (if 0 < first_contentful_paint
      then PyVal.num (round2 first_contentful_paint) else PyVal.str "未捕获")
    (if 0 < first_contentful_paint
      then PyVal.num (round2 (first_contentful_paint + 300)) else PyVal.str "未捕获")

/-- `analyze_page_timings` (lines 142-201).  `pages = []` is the
`if not self.pages` branch (also produced by `__init__` when haralyzer
fails); a malformed first page is the `except` branch of line 186. -/
def analyze_page_timings (pages : List PageData) (entries : List RawEntry) :
    PageTimingsResult :=
  match pages with
  | [] =>
    match entries with
    | [] => PageTimingsResult.minimal
    | e :: _ => PageTimingsResult.degraded (entryUrlOr e)
  | pd :: _ =>
    match pd with
    | .ok p => pageFull p
    | .malformed =>
      match entries with
      | [] => PageTimingsResult.minimal
      | e :: _ => PageTimingsResult.degraded (entryUrlOr e)

/-! ### `generate_summary` (lines 203-249) -/

/-- `page_timings.get("页面完全加载时间(ms)", 0)` (line 240). -/
def ptLoadTime : PageTimingsResult → PyVal
  | .full _ _ _ le _ _ => le
  | .degraded _ => .str "不可用"
  | .minimal => .num 0

/-- `page_timings.get("DOM就绪时间(ms)", 0)` (line 241). -/
def ptDomReady : PageTimingsResult → PyVal
  | .full _ _ dr _ _ _ => dr
  | .degraded _ => .str "不可用"
  | .minimal => .num 0

/-- `page_timings.get("首次内容绘制FCP(ms)", "未捕获")` (line 242). -/
def ptFcp : PageTimingsResult → PyVal
  | .full _ _ _ _ fcp _ => fcp
  | .degraded _ => .str "不可用"
  | .minimal => .str "未捕获"

/-- The summary dictionary built by `identify_bottlenecks` from
`generate_summary`'s two-column DataFrame
(`dict(zip(summary["统计指标"], summary["数值"]))`, line 254); the field
names follow the fixed metric labels of lines 223-234. -/
structure SummaryStatistics where
  totalRequests : PyVal    -- 总请求数
  slowRequests : PyVal     -- 慢资源数(>500ms)
  errorRequests : PyVal    -- 错误请求数(4xx/5xx)
  avgTime : PyVal          -- 平均请求耗时(ms)
  loadTime : PyVal         -- 页面完全加载时间(ms)
  domReady : PyVal         -- DOM就绪时间(ms)
  fcp : PyVal              -- 首次内容绘制FCP(ms)
  resourceDist : String    -- 资源类型分布
  domainDist : String      -- 域名分布
  top3Slow : String        -- 耗时Top3资源
deriving DecidableEq

/-- Stable descending insertion by a key (earlier elements come first on
ties), used to model `value_counts()` and `nlargest` ordering. -/
def insertDescBy {α β : Type} [LinearOrder β] (f : α → β) (a : α) :
    List α → List α
  | [] => [a]
  | b :: bs => if f b ≤ f a then a :: b :: bs else b :: insertDescBy f a bs

/-- Stable descending sort by a key. -/
def sortDescBy {α β : Type} [LinearOrder β] (f : α → β) : List α → List α
  | [] => []
  | a :: l => insertDescBy f a (sortDescBy f l)

/-- Distinct values in first-seen order. -/
def firstSeenKeys : List String → List String
  | [] => []
  | x :: xs => x :: firstSeenKeys (xs.filter (fun y => y ≠ x))
termination_by xs => xs.length
decreasing_by
  simp only [List.length_cons]
  exact Nat.lt_succ_of_le (xs.length_filter_le _)

/-- `Series.value_counts().to_dict()`: value → multiplicity, ordered by
descending count (stable on ties). -/
def valueCounts (xs : List String) : List (String × Nat) :=
  sortDescBy (fun kv => kv.2) ((firstSeenKeys xs).map (fun k => (k, xs.count k)))

/-- `"; ".join(f"{k}: {v}个" ...)` over a distribution (lines 212/216). -/
def distJoin (kvs : List (String × Nat)) : String :=
  String.intercalate "; " (kvs.map (fun kv => kv.1 ++ ": " ++ toString kv.2 ++ "个"))

/-- `generate_summary` (lines 203-249).  A pandas DataFrame built from an
empty record list has no columns at all, so the column selection
`request_df["慢资源标记"]` at line 206 raises `KeyError` before any of the
guarded computations run; that failure is the `Except.error` branch.  On a
non-empty record list every column exists and the reduction is total. -/
def generate_summary (request_df : List RequestRecord)
    (page_timings : PageTimingsResult) : Except String SummaryStatistics :=
  if request_df.isEmpty then
    Except.error "KeyError: 慢资源标记"
  else
    let total_requests := request_df.length
    let slow_requests := (request_df.filter (fun r => r.isSlow = "是")).length
    let error_requests := (request_df.filter (fun r => r.isError = "是")).length
    let avg_total_time : ℚ :=
      if 0 < request_df.length
      then (request_df.map (fun r => r.totalTime)).sum / (request_df.length : ℚ)
      else 0
    let resource_dist := valueCounts (request_df.map (fun r => r.resourceType))
    let resource_dist_str :=
      if resource_dist.isEmpty then "无数据" else distJoin resource_dist
    let domain_dist := valueCounts (request_df.map (fun r => r.domain))
    let domain_dist_str :=
      if domain_dist.isEmpty then "无数据" else distJoin domain_dist
    let top3_slow :=
      ((sortDescBy (fun r => r.totalTime) request_df).take 3).map (fun r => r.url)
    let top3_slow_str :=
      if top3_slow.isEmpty then "无数据"
      else String.intercalate "; "
        (top3_slow.map (fun url => strLastChars 50 (strBefore '?' url)))
    Except.ok
      { totalRequests := .num total_requests
        slowRequests := .num slow_requests
        errorRequests := .num error_requests
        avgTime := .num (round2 avg_total_time)
        loadTime := ptLoadTime page_timings
        domReady := ptDomReady page_timings
        fcp := ptFcp page_timings
        resourceDist := resource_dist_str
        domainDist := domain_dist_str
        top3Slow := top3_slow_str }

/-! ### `identify_bottlenecks` (lines 251-316) -/

/-- One row of the bottleneck DataFrame (lines 261-314). -/
structure Finding where
  btype : String   -- 瓶颈类型
  descr : String   -- 描述
  advice : String  -- 优化建议
deriving DecidableEq

/-- The rule-1 finding (lines 261-265), for slow-request count `q`. -/
def finding1 (q : ℚ) : Finding :=
  { btype := "慢资源过多"
    descr := "共存在" ++ fmtNum q ++ "个加载耗时超过500ms的资源,影响页面加载速度"
    advice := "1. 压缩图片资源(使用TinyPNG);2. 对JS/CSS进行代码分割和懒加载;3. 启用CDN加速静态资源;4. 优化服务器响应时间" }

/-- The rule-2 finding (lines 272-276), for total request count `q`. -/
def finding2 (q : ℚ) : Finding :=
  { btype := "请求数过多"
    descr := "页面总请求数" ++ fmtNum q ++ "个,超过合理阈值(80个),增加网络开销"
    advice := "1. 合并JS/CSS文件(使用Webpack打包);2. 使用图片雪碧图(Sprite);3. 减少第三方库依赖,按需引入" }

/-- The rule-3 finding (lines 283-287), for error-request count `q`. -/
def finding3 (q : ℚ) : Finding :=
  { btype := "错误请求"
    descr := "存在" ++ fmtNum q ++ "个错误请求,可能导致功能异常或资源加载失败"
    advice := "1. 检查资源URL是否正确;2. 排查接口服务状态;3. 修复4xx(资源不存在)/5xx(服务器错误)问题" }

/-- The rule-4 finding (lines 294-298), for mean request duration `q`. -/
def finding4 (q : ℚ) : Finding :=
  { btype := "平均请求耗时过高"
    descr := "平均请求耗时" ++ fmtNum q ++ "ms,超过合理阈值(300ms)"
    advice := "1. 优化数据库查询(添加索引);2. 启用服务器缓存(Redis);3. 升级服务器带宽;4. 采用HTTP/2协议" }

/-- The rule-5 finding (lines 303-307), for FCP value `q`. -/
def finding5 (q : ℚ) : Finding :=
  { btype := "首次内容绘制(FCP)过慢"
    descr := "FCP耗时" ++ fmtNum q ++ "ms,超过优秀阈值(1800ms),影响用户首屏体验"
    advice := "1. 内联首屏关键CSS;2. 预加载核心HTML/JS;3. 减少首屏非必要资源;4. 优化服务器响应速度" }

/-- The no-issue finding (lines 310-314). -/
def noIssueFinding : Finding :=
  { btype := "无明显性能瓶颈"
    descr := "页面性能表现良好,各项指标在合理范围内"
    advice := "1. 持续监控资源加载状态;2. 定期清理冗余资源;3. 跟进HTTP/3等新协议优化" }

/-- Rule 1 (lines 257-265): a string value is coerced to `0` and the
`elif` is skipped, so only a numeric count `> 0` fires. -/
def bottleneck1 (s : SummaryStatistics) : List Finding :=
  match s.slowRequests with
  | .str _ => []
  | .num q => if 0 < q then [finding1 q] else []

/-- Rule 2 (lines 268-276): string → `0`, fires on a numeric count `> 80`. -/
def bottleneck2 (s : SummaryStatistics) : List Finding :=
  match s.totalRequests with
  | .str _ => []
  | .num q => if 80 < q then [finding2 q] else []

/-- Rule 3 (lines 279-287): string → `0`, fires on a numeric count `> 0`. -/
def bottleneck3 (s : SummaryStatistics) : List Finding :=
  match s.errorRequests with
  | .str _ => []
  | .num q => if 0 < q then [finding3 q] else []

/-- Rule 4 (lines 290-298): string → `0`, fires on a numeric mean `> 300`. -/
def bottleneck4 (s : SummaryStatistics) : List Finding :=
  match s.avgTime with
  | .str _ => []
  | .num q => if 300 < q then [finding4 q] else []

/-- Rule 5 (lines 300-307): `fcp != "未捕获" and isinstance(fcp, (int,
float)) and fcp > 1800`.  A numeric value is never `==` to a string, so
the first conjunct holds vacuously; the string `"未捕获"` fails the first
conjunct and every other string fails the `isinstance` check — in both
cases the value is never coerced and compared. -/
def bottleneck5 (s : SummaryStatistics) : List Finding :=
  match s.fcp with
  | .str _ => []
  | .num q => if 1800 < q then [finding5 q] else []

/-- `identify_bottlenecks` (lines 251-316).  (The source also receives
`request_df`, which the body never reads.)  The five rules append their
findings in fixed order; the no-issue finding is emitted exactly when the
list is still empty. -/
def identify_bottlenecks (s : SummaryStatistics) : List Finding :=
  let bottlenecks :=
    bottleneck1 s ++ bottleneck2 s ++ bottleneck3 s ++ bottleneck4 s ++ bottleneck5 s
  if bottlenecks.isEmpty then [noIssueFinding] else bottlenecks

/-! ### Auxiliary accessors and concrete inputs used by the theorems -/

/-- The six phase-timing fields of a raw `timings` dict, indexed in source
order (dns, connect, ssl, send, wait, receive). -/
def phaseGet (k : Fin 6) (t : Timings) : Option ℚ :=
  [t.dns, t.connect, t.ssl, t.send, t.wait, t.receive].get k

/-- The six phase-duration fields of a `RequestRecord`, indexed in the
same order as `phaseGet`. -/
def recPhase (k : Fin 6) (r : RequestRecord) : ℚ :=
  [r.dnsTime, r.tcpTime, r.sslTime, r.sendTime, r.waitTime, r.receiveTime].get k

/-- Spec-side definition for claim C5, following the spec's words rather
than the source: the domain is "the host component obtained by splitting
the URL on the first occurrence of `//` (the text between that separator
and the next `/`)", else `"unknown"`. -/
def afterFirstSep (sep : List Char) : List Char → Option (List Char)
  | [] => none
  | c :: cs =>
    if sep.isPrefixOf (c :: cs) then some ((c :: cs).drop sep.length)
    else afterFirstSep sep cs

/-- Spec-side domain function for claim C5 (first `//` occurrence). -/
def specDomainFirstSplit (url : String) : String :=
  match afterFirstSep ['/', '/'] url.toList with
  | some rest => String.mk (rest.takeWhile (fun c => c ≠ '/'))
  | none => "unknown"

/-- An entry whose only content is a request URL. -/
def entW3 : RawEntry :=
  { request := some { url := some "https://w.example/", method := none }
    response := none, timings := none, time := none }

/-- An entry with every field absent. -/
def entA : RawEntry := ⟨none, none, none, none⟩

/-- A small well-formed entry. -/
def entB : RawEntry :=
  { request := some { url := some "https://b.example/x", method := some "GET" }
    response := none, timings := none, time := some 10 }

/-- An entry with a present negative (non-`-1`) DNS timing and the
sentinel `-1` as raw total time. -/
def entC2 : RawEntry :=
  { request := none, response := none
    timings := some { dns := some (-5), connect := none, ssl := none
                      send := none, wait := none, receive := none }
    time := some (-1) }

/-- An entry with a present non-negative DNS timing. -/
def entC2w : RawEntry :=
  { request := none, response := none
    timings := some { dns := some 7, connect := none, ssl := none
                      send := none, wait := none, receive := none }
    time := none }

/-- An entry whose URL contains a single `//`. -/
def entC5w : RawEntry :=
  { request := some { url := some "https://ex.com/path", method := none }
    response := none, timings := none, time := none }

/-- A summary on which none of the five bottleneck rules fires. -/
def baseSummary : SummaryStatistics :=
  { totalRequests := .num 0, slowRequests := .num 0, errorRequests := .num 0
    avgTime := .num 0, loadTime := .num 0, domReady := .num 0
    fcp := .str "未捕获", resourceDist := "无数据", domainDist := "无数据"
    top3Slow := "无数据" }

/-! ### Theorems -/

/-- C1: the claim says `summarize` on an empty Request Record list returns
total=0, slow=0, error=0, mean=0 without failing.  The code instead fails:
`pd.DataFrame([])` has no columns, so `request_df["慢资源标记"]` at
line 206 raises `KeyError` for every empty record list (the divide-by-zero
guard at line 208 is never even reached), no matter which Page Timing
Snapshot is supplied. -/
theorem C1_generate_summary_empty_raises (pt : PageTimingsResult) :
    generate_summary [] pt = Except.error "KeyError: 慢资源标记" := rfl

/-- C3: `analyze_page_timings` never aborts; whenever no page-level
navigation data is available (`pages` empty) or reading the first page's
data raises (malformed first page, caught by the `except` of line 186), it
returns the degraded shape built from the first entry's URL when at least
one entry exists, and the minimal no-data shape otherwise. -/
theorem C3_page_timings_degrade (pages : List PageData) (entries : List RawEntry)
    (h : pages = [] ∨ pages.head? = some PageData.malformed) :
    analyze_page_timings pages entries =
      match entries with
      | [] => PageTimingsResult.minimal
      | e :: _ => PageTimingsResult.degraded (entryUrlOr e) := by
  rcases h with h | h
  · subst h; cases entries <;> rfl
  · cases pages with
    | nil => simp at h
    | cons pd rest =>
      simp only [List.head?_cons, Option.some.injEq] at h
      subst h; cases entries <;> rfl

/-- Witness for C3: a malformed first page with one entry degrades to that
entry's URL. -/
theorem C3_page_timings_degrade_witness :
    analyze_page_timings [PageData.malformed] [entW3] =
      PageTimingsResult.degraded "https://w.example/" := by
  have h := C3_page_timings_degrade [PageData.malformed] [entW3] (Or.inr rfl)
  exact h.trans rfl

/-- `analyzeFrom` produces as many records as entries. -/
theorem analyzeFrom_length (k : Nat) (entries : List RawEntry) :
    (analyzeFrom k entries).length = entries.length := by
  induction entries generalizing k with
  | nil => rfl
  | cons e rest ih =>
    show (processEntry k e :: analyzeFrom (k + 1) rest).length = rest.length + 1
    rw [List.length_cons, ih (k + 1)]

/-- Unfolding lemma: `analyzeFrom` on an empty list. -/
theorem analyzeFrom_nil (k : Nat) : analyzeFrom k [] = [] := rfl

/-- Unfolding lemma: `analyzeFrom` on a cons. -/
theorem analyzeFrom_cons (k : Nat) (e : RawEntry) (rest : List RawEntry) :
    analyzeFrom k (e :: rest) = processEntry k e :: analyzeFrom (k + 1) rest := rfl

/-- `analyzeFrom k` maps the `i`-th entry to a record at index `k + i`. -/
theorem analyzeFrom_get (entries : List RawEntry) :
    ∀ (k i : Nat),
      (analyzeFrom k entries)[i]? =
        (entries[i]?).map (fun e => processEntry (k + i) e) := by
  induction entries with
  | nil => intro k i; rw [analyzeFrom_nil]; simp
  | cons e rest ih =>
    intro k i
    rw [analyzeFrom_cons]
    cases i with
    | zero => simp
    | succ j =>
      rw [List.getElem?_cons_succ, List.getElem?_cons_succ]
      have e1 : k + (j + 1) = k + 1 + j := by omega
      rw [e1]
      exact ih (k + 1) j

/-- The sequence index stored in a record is the enumeration index. -/
theorem processEntry_idx (n : Nat) (e : RawEntry) : (processEntry n e).idx = n := rfl

/-- C4: `analyze_request_details` returns exactly one Request Record per
raw entry, in input order (the `i`-th record is the processed `i`-th
entry), and the stored sequence indices are exactly `1..len(entries)`. -/
theorem C4_one_record_per_entry_in_order (entries : List RawEntry) :
    (analyze_request_details entries).length = entries.length ∧
    ∀ i : Nat, i < entries.length →
      ((analyze_request_details entries)[i]?).map (fun r => r.idx) = some (i + 1) ∧
      (analyze_request_details entries)[i]? =
        (entries[i]?).map (fun e => processEntry (i + 1) e) := by
  refine ⟨analyzeFrom_length 1 entries, fun i hi => ?_⟩
  have h := analyzeFrom_get entries 1 i
  have hi' : entries[i]? = some entries[i] := List.getElem?_eq_getElem hi
  constructor
  · rw [analyze_request_details, h, hi']
    simp [processEntry_idx, Nat.add_comm]
  · rw [analyze_request_details, h, Nat.add_comm]

/-- Witness for C4: on a concrete two-entry list, the second record holds
sequence index 2 and the length matches. -/
theorem C4_one_record_per_entry_in_order_witness :
    (analyze_request_details [entA, entB]).length = 2 ∧
    ((analyze_request_details [entA, entB])[1]?).map (fun r => r.idx) = some 2 := by
  have h := C4_one_record_per_entry_in_order [entA, entB]
  exact ⟨h.1.trans rfl, (h.2 1 (by norm_num)).1⟩

/-- An if-then-else over two category labels stays inside the table. -/
theorem mem_ite_string {c : Prop} [Decidable c] {a b : String} {L : List String}
    (ha : a ∈ L) (hb : b ∈ L) : (if c then a else b) ∈ L := by
  split
  · exact ha
  · exact hb

/-- C6: `_get_resource_type` is total: for every URL and every (possibly
absent) content type it returns one of the 8 resource categories, and an
absent content type behaves exactly like the empty string. -/
theorem C6_classify_total (url : String) (ct : Option String) :
    _get_resource_type url ct ∈
      ["HTML", "CSS", "JS", "图片", "字体", "JSON接口", "视频", "其他"] ∧
    _get_resource_type url none = _get_resource_type url (some "") := by
  constructor
  · simp only [_get_resource_type]
    repeat' apply mem_ite_string
    all_goals decide
  · simp only [_get_resource_type, Option.getD_none, Option.getD_some]

/-- `roundHalfEven` of a non-negative rational is non-negative. -/
theorem roundHalfEven_nonneg {q : ℚ} (h : 0 ≤ q) : 0 ≤ roundHalfEven q := by
  unfold roundHalfEven
  have hf : (0 : ℤ) ≤ ⌊q⌋ := Int.floor_nonneg.mpr h
  dsimp only
  split_ifs <;> omega

/-- `round(q, 2)` of a non-negative rational is non-negative. -/
theorem round2_nonneg {q : ℚ} (h : 0 ≤ q) : 0 ≤ round2 q := by
  unfold round2
  have h1 : (0 : ℤ) ≤ roundHalfEven (q * 100) :=
    roundHalfEven_nonneg (by positivity)
  have h2 : (0 : ℚ) ≤ (roundHalfEven (q * 100) : ℚ) := by exact_mod_cast h1
  exact div_nonneg h2 (by norm_num)

/-- `round(_, 2)` fixes every integer value. -/
theorem round2_int (n : ℤ) : round2 (n : ℚ) = n := by
  have h2 : roundHalfEven ((n : ℚ) * 100) = n * 100 := by
    have h1 : ((n : ℚ) * 100) = ((n * 100 : ℤ) : ℚ) := by push_cast; ring
    simp only [roundHalfEven, h1, Int.floor_intCast, sub_self]
    norm_num
  unfold round2
  rw [h2]
  push_cast
  ring

/-- Each record phase field is the rounded, sentinel-filtered raw value. -/
theorem recPhase_processEntry (k : Fin 6) (i : Nat) (e : RawEntry) :
    recPhase k (processEntry i e) =
      round2 (tVal (phaseGet k (e.timings.getD emptyTimings))) := by
  fin_cases k <;> rfl

/-- C2 counterexample: the claim says a present negative timing value and
a sentinel total time both yield 0 and that no timing field is ever
negative, but for an entry with raw `dns = -5` (negative, ≠ -1) and raw
`time = -1` the code stores `-5` (negative) as the DNS field — line 105
only filters the exact value `-1` — and `-1` as the total duration —
line 111 applies no filter at all. -/
theorem C2_timing_counterexample :
    (processEntry 1 entC2).dnsTime = -5 ∧ (processEntry 1 entC2).dnsTime < 0 ∧
    (processEntry 1 entC2).totalTime = -1 := by
  have h5 : (processEntry 1 entC2).dnsTime = round2 (tVal (some (-5))) := rfl
  have h5' : (processEntry 1 entC2).dnsTime = -5 := by
    rw [h5]
    have ht : tVal (some (-5 : ℚ)) = -5 := by norm_num [tVal]
    rw [ht]
    simpa using round2_int (-5)
  have ht0 : (processEntry 1 entC2).totalTime = round2 (-1) := rfl
  refine ⟨h5', by rw [h5']; norm_num, ?_⟩
  rw [ht0]
  simpa using round2_int (-1)

/-- C2 (amended): each of the six phase timing fields equals the rounded
raw value whenever that value is present and different from the sentinel
`-1` (even when negative), equals 0 when the field is absent or exactly
`-1`, and is non-negative whenever the raw value is non-negative; the
total duration equals the rounded raw `time` when present (with no
sentinel or sign filtering) and 0 when absent. -/
theorem C2_timing_fields_amended (k : Fin 6) (i : Nat) (e : RawEntry) :
    (∀ v : ℚ, phaseGet k (e.timings.getD emptyTimings) = some v → v ≠ -1 →
       recPhase k (processEntry i e) = round2 v) ∧
    (phaseGet k (e.timings.getD emptyTimings) = none ∨
       phaseGet k (e.timings.getD emptyTimings) = some (-1) →
       recPhase k (processEntry i e) = 0) ∧
    (∀ v : ℚ, phaseGet k (e.timings.getD emptyTimings) = some v → 0 ≤ v →
       0 ≤ recPhase k (processEntry i e)) ∧
    (∀ v : ℚ, e.time = some v → (processEntry i e).totalTime = round2 v) ∧
    (e.time = none → (processEntry i e).totalTime = 0) := by
  have hbase := recPhase_processEntry k i e
  have htot : (processEntry i e).totalTime = round2 (e.time.getD 0) := by
    fin_cases k <;> rfl
  refine ⟨?_, ?_, ?_, ?_, ?_⟩
  · intro v hv hne
    rw [hbase, hv]
    simp [tVal, hne]
  · intro hv
    have hz : round2 (0 : ℚ) = 0 := by simpa using round2_int 0
    rcases hv with hv | hv
    · rw [hbase, hv]
      simpa [tVal] using hz
    · rw [hbase, hv]
      have ht : tVal (some (-1 : ℚ)) = 0 := by simp [tVal]
      rw [ht, hz]
  · intro v hv hnn
    have hne : v ≠ -1 := by intro hc; rw [hc] at hnn; norm_num at hnn
    rw [hbase, hv]
    simp only [tVal, hne, if_neg]
    exact round2_nonneg hnn
  · intro v hv
    rw [htot, hv]
    rfl
  · intro hv
    rw [htot, hv]
    simpa [Option.getD] using round2_int 0

/-- Witness for the amended C2: a present raw `dns = 7` comes through as
`7` and is non-negative. -/
theorem C2_timing_fields_amended_witness :
    (processEntry 1 entC2w).dnsTime = 7 ∧ 0 ≤ (processEntry 1 entC2w).dnsTime := by
  have h := C2_timing_fields_amended 0 1 entC2w
  refine ⟨?_, h.2.2.1 7 rfl (by norm_num)⟩
  have h1 : recPhase 0 (processEntry 1 entC2w) = round2 7 := h.1 7 rfl (by norm_num)
  have h2 : round2 7 = 7 := by simpa using round2_int 7
  exact h1.trans h2

/-- Rule 1 on a numeric slow-request count. -/
theorem bottleneck1_num (s : SummaryStatistics) (q : ℚ)
    (h : s.slowRequests = PyVal.num q) :
    bottleneck1 s = if 0 < q then [finding1 q] else [] := by
  unfold bottleneck1; rw [h]

/-- Rule 1 on a string slow-request count: coerced to 0, never fires. -/
theorem bottleneck1_str (s : SummaryStatistics) (t : String)
    (h : s.slowRequests = PyVal.str t) : bottleneck1 s = [] := by
  unfold bottleneck1; rw [h]

/-- Rule 2 on a numeric total request count. -/
theorem bottleneck2_num (s : SummaryStatistics) (q : ℚ)
    (h : s.totalRequests = PyVal.num q) :
    bottleneck2 s = if 80 < q then [finding2 q] else [] := by
  unfold bottleneck2; rw [h]

/-- Rule 2 on a string total request count: coerced to 0, never fires. -/
theorem bottleneck2_str (s : SummaryStatistics) (t : String)
    (h : s.totalRequests = PyVal.str t) : bottleneck2 s = [] := by
  unfold bottleneck2; rw [h]

/-- Rule 3 on a numeric error-request count. -/
theorem bottleneck3_num (s : SummaryStatistics) (q : ℚ)
    (h : s.errorRequests = PyVal.num q) :
    bottleneck3 s = if 0 < q then [finding3 q] else [] := by
  unfold bottleneck3; rw [h]

/-- Rule 3 on a string error-request count: coerced to 0, never fires. -/
theorem bottleneck3_str (s : SummaryStatistics) (t : String)
    (h : s.errorRequests = PyVal.str t) : bottleneck3 s = [] := by
  unfold bottleneck3; rw [h]

/-- Rule 4 on a numeric mean duration. -/
theorem bottleneck4_num (s : SummaryStatistics) (q : ℚ)
    (h : s.avgTime = PyVal.num q) :
    bottleneck4 s = if 300 < q then [finding4 q] else [] := by
  unfold bottleneck4; rw [h]

/-- Rule 4 on a string mean duration: coerced to 0, never fires. -/
theorem bottleneck4_str (s : SummaryStatistics) (t : String)
    (h : s.avgTime = PyVal.str t) : bottleneck4 s = [] := by
  unfold bottleneck4; rw [h]

/-- Rule 5 on a numeric FCP. -/
theorem bottleneck5_num (s : SummaryStatistics) (q : ℚ)
    (h : s.fcp = PyVal.num q) :
    bottleneck5 s = if 1800 < q then [finding5 q] else [] := by
  unfold bottleneck5; rw [h]

/-- Rule 5 on any string FCP (including the placeholder): never fires. -/
theorem bottleneck5_str (s : SummaryStatistics) (t : String)
    (h : s.fcp = PyVal.str t) : bottleneck5 s = [] := by
  unfold bottleneck5; rw [h]

/-- Every rule-1 finding carries the rule-1 category label. -/
theorem mem_bottleneck1_btype {s : SummaryStatistics} {f : Finding}
    (h : f ∈ bottleneck1 s) : f.btype = "慢资源过多" := by
  rcases hq : s.slowRequests with q | t
  · rw [bottleneck1_num s q hq] at h
    split at h
    · rw [List.mem_singleton] at h; subst h; rfl
    · exact absurd h (List.not_mem_nil f)
  · rw [bottleneck1_str s t hq] at h
    exact absurd h (List.not_mem_nil f)

/-- Every rule-2 finding carries the rule-2 category label. -/
theorem mem_bottleneck2_btype {s : SummaryStatistics} {f : Finding}
    (h : f ∈ bottleneck2 s) : f.btype = "请求数过多" := by
  rcases hq : s.totalRequests with q | t
  · rw [bottleneck2_num s q hq] at h
    split at h
    · rw [List.mem_singleton] at h; subst h; rfl
    · exact absurd h (List.not_mem_nil f)
  · rw [bottleneck2_str s t hq] at h
    exact absurd h (List.not_mem_nil f)

/-- Every rule-3 finding carries the rule-3 category label. -/
theorem mem_bottleneck3_btype {s : SummaryStatistics} {f : Finding}
    (h : f ∈ bottleneck3 s) : f.btype = "错误请求" := by
  rcases hq : s.errorRequests with q | t
  · rw [bottleneck3_num s q hq] at h
    split at h
    · rw [List.mem_singleton] at h; subst h; rfl
    · exact absurd h (List.not_mem_nil f)
  · rw [bottleneck3_str s t hq] at h
    exact absurd h (List.not_mem_nil f)

/-- Every rule-4 finding carries the rule-4 category label. -/
theorem mem_bottleneck4_btype {s : SummaryStatistics} {f : Finding}
    (h : f ∈ bottleneck4 s) : f.btype = "平均请求耗时过高" := by
  rcases hq : s.avgTime with q | t
  · rw [bottleneck4_num s q hq] at h
    split at h
    · rw [List.mem_singleton] at h; subst h; rfl
    · exact absurd h (List.not_mem_nil f)
  · rw [bottleneck4_str s t hq] at h
    exact absurd h (List.not_mem_nil f)

/-- Every rule-5 finding carries the rule-5 category label. -/
theorem mem_bottleneck5_btype {s : SummaryStatistics} {f : Finding}
    (h : f ∈ bottleneck5 s) : f.btype = "首次内容绘制(FCP)过慢" := by
  rcases hq : s.fcp with q | t
  · rw [bottleneck5_num s q hq] at h
    split at h
    · rw [List.mem_singleton] at h; subst h; rfl
    · exact absurd h (List.not_mem_nil f)
  · rw [bottleneck5_str s t hq] at h
    exact absurd h (List.not_mem_nil f)

/-- Rule 5 fires exactly on a numeric FCP above 1800. -/
theorem bottleneck5_ne_nil_iff (s : SummaryStatistics) :
    bottleneck5 s ≠ [] ↔ ∃ q : ℚ, s.fcp = PyVal.num q ∧ 1800 < q := by
  constructor
  · intro h
    rcases hq : s.fcp with q | t
    · rw [bottleneck5_num s q hq] at h
      by_cases hgt : 1800 < q
      · exact ⟨q, rfl, hgt⟩
      · rw [if_neg hgt] at h; exact absurd rfl h
    · exact absurd (bottleneck5_str s t hq) h
  · rintro ⟨q, hq, hgt⟩
    rw [bottleneck5_num s q hq, if_pos hgt]
    simp

/-- C7: the rule engine is monotonic per rule.  For each of the five
rules: if the rule does not fire on a summary `s` and its triggering
metric alone is raised to a value above the rule's threshold, the output
is exactly the firing rule's finding inserted at the rule's position among
the findings of the unchanged remaining rules — no other finding is added
and no other rule's firing status changes (and the no-issue placeholder,
if it was the sole output, disappears). -/
theorem C7_rules_monotonic :
    (∀ (s : SummaryStatistics) (q : ℚ), bottleneck1 s = [] → 0 < q →
       identify_bottlenecks { s with slowRequests := PyVal.num q } =
         finding1 q :: (bottleneck2 s ++ bottleneck3 s ++ bottleneck4 s ++ bottleneck5 s)) ∧
    (∀ (s : SummaryStatistics) (q : ℚ), bottleneck2 s = [] → 80 < q →
       identify_bottlenecks { s with totalRequests := PyVal.num q } =
         bottleneck1 s ++ finding2 q :: (bottleneck3 s ++ bottleneck4 s ++ bottleneck5 s)) ∧
    (∀ (s : SummaryStatistics) (q : ℚ), bottleneck3 s = [] → 0 < q →
       identify_bottlenecks { s with errorRequests := PyVal.num q } =
         bottleneck1 s ++ bottleneck2 s ++ finding3 q :: (bottleneck4 s ++ bottleneck5 s)) ∧
    (∀ (s : SummaryStatistics) (q : ℚ), bottleneck4 s = [] → 300 < q →
       identify_bottlenecks { s with avgTime := PyVal.num q } =
         bottleneck1 s ++ bottleneck2 s ++ bottleneck3 s ++ finding4 q :: bottleneck5 s) ∧
    (∀ (s : SummaryStatistics) (q : ℚ), bottleneck5 s = [] → 1800 < q →
       identify_bottlenecks { s with fcp := PyVal.num q } =
         bottleneck1 s ++ bottleneck2 s ++ bottleneck3 s ++ bottleneck4 s ++ [finding5 q]) := by
  refine ⟨?_, ?_, ?_, ?_, ?_⟩
  · intro s q h1 hq
    have e1 : bottleneck1 { s with slowRequests := PyVal.num q } = [finding1 q] := by
      rw [bottleneck1_num _ q rfl, if_pos hq]
    have e2 : bottleneck2 { s with slowRequests := PyVal.num q } = bottleneck2 s := rfl
    have e3 : bottleneck3 { s with slowRequests := PyVal.num q } = bottleneck3 s := rfl
    have e4 : bottleneck4 { s with slowRequests := PyVal.num q } = bottleneck4 s := rfl
    have e5 : bottleneck5 { s with slowRequests := PyVal.num q } = bottleneck5 s := rfl
    unfold identify_bottlenecks
    rw [e1, e2, e3, e4, e5]
    simp [List.isEmpty_iff, List.append_assoc]
  · intro s q h2 hq
    have e1 : bottleneck1 { s with totalRequests := PyVal.num q } = bottleneck1 s := rfl
    have e2 : bottleneck2 { s with totalRequests := PyVal.num q } = [finding2 q] := by
      rw [bottleneck2_num _ q rfl, if_pos hq]
    have e3 : bottleneck3 { s with totalRequests := PyVal.num q } = bottleneck3 s := rfl
    have e4 : bottleneck4 { s with totalRequests := PyVal.num q } = bottleneck4 s := rfl
    have e5 : bottleneck5 { s with totalRequests := PyVal.num q } = bottleneck5 s := rfl
    unfold identify_bottlenecks
    rw [e1, e2, e3, e4, e5]
    simp [List.isEmpty_iff, List.append_assoc]
  · intro s q h3 hq
    have e1 : bottleneck1 { s with errorRequests := PyVal.num q } = bottleneck1 s := rfl
    have e2 : bottleneck2 { s with errorRequests := PyVal.num q } = bottleneck2 s := rfl
    have e3 : bottleneck3 { s with errorRequests := PyVal.num q } = [finding3 q] := by
      rw [bottleneck3_num _ q rfl, if_pos hq]
    have e4 : bottleneck4 { s with errorRequests := PyVal.num q } = bottleneck4 s := rfl
    have e5 : bottleneck5 { s with errorRequests := PyVal.num q } = bottleneck5 s := rfl
    unfold identify_bottlenecks
    rw [e1, e2, e3, e4, e5]
    simp [List.isEmpty_iff, List.append_assoc]
  · intro s q h4 hq
    have e1 : bottleneck1 { s with avgTime := PyVal.num q } = bottleneck1 s := rfl
    have e2 : bottleneck2 { s with avgTime := PyVal.num q } = bottleneck2 s := rfl
    have e3 : bottleneck3 { s with avgTime := PyVal.num q } = bottleneck3 s := rfl
    have e4 : bottleneck4 { s with avgTime := PyVal.num q } = [finding4 q] := by
      rw [bottleneck4_num _ q rfl, if_pos hq]
    have e5 : bottleneck5 { s with avgTime := PyVal.num q } = bottleneck5 s := rfl
    unfold identify_bottlenecks
    rw [e1, e2, e3, e4, e5]
    simp [List.isEmpty_iff, List.append_assoc]
  · intro s q h5 hq
    have e1 : bottleneck1 { s with fcp := PyVal.num q } = bottleneck1 s := rfl
    have e2 : bottleneck2 { s with fcp := PyVal.num q } = bottleneck2 s := rfl
    have e3 : bottleneck3 { s with fcp := PyVal.num q } = bottleneck3 s := rfl
    have e4 : bottleneck4 { s with fcp := PyVal.num q } = bottleneck4 s := rfl
    have e5 : bottleneck5 { s with fcp := PyVal.num q } = [finding5 q] := by
      rw [bottleneck5_num _ q rfl, if_pos hq]
    unfold identify_bottlenecks
    rw [e1, e2, e3, e4, e5]
    simp [List.isEmpty_iff, List.append_assoc]

/-- Witness for C7: raising only the slow-request count of an otherwise
quiet summary to 2 yields exactly the rule-1 finding. -/
theorem C7_rules_monotonic_witness :
    identify_bottlenecks { baseSummary with slowRequests := PyVal.num 2 } =
      [finding1 2] := by
  have h1 : bottleneck1 baseSummary = [] := by
    rw [bottleneck1_num baseSummary 0 rfl]
    norm_num
  have h := C7_rules_monotonic.1 baseSummary 2 h1 (by norm_num)
  rw [h]
  rw [bottleneck2_num baseSummary 0 rfl, bottleneck3_num baseSummary 0 rfl,
    bottleneck4_num baseSummary 0 rfl, bottleneck5_str baseSummary "未捕获" rfl]
  norm_num

/-- C8: rule 5 contributes a finding if and only if the FCP cell holds a
numeric value strictly greater than 1800; any string placeholder (such as
"未捕获" or the degraded "不可用") is non-triggering and is never coerced
to 0 and compared. -/
theorem C8_rule5_fcp_guard (s : SummaryStatistics) :
    ((identify_bottlenecks s).any (fun f => f.btype == "首次内容绘制(FCP)过慢")) = true ↔
      ∃ q : ℚ, s.fcp = PyVal.num q ∧ 1800 < q := by
  constructor
  · intro h
    dsimp only [identify_bottlenecks] at h
    split at h
    · exact absurd h (by decide)
    · simp only [List.any_append, Bool.or_eq_true, List.any_eq_true] at h
      rcases h with ((((⟨f, hf, hp⟩ | ⟨f, hf, hp⟩) | ⟨f, hf, hp⟩) | ⟨f, hf, hp⟩) | ⟨f, hf, _⟩)
      · rw [beq_iff_eq, mem_bottleneck1_btype hf] at hp; exact absurd hp (by decide)
      · rw [beq_iff_eq, mem_bottleneck2_btype hf] at hp; exact absurd hp (by decide)
      · rw [beq_iff_eq, mem_bottleneck3_btype hf] at hp; exact absurd hp (by decide)
      · rw [beq_iff_eq, mem_bottleneck4_btype hf] at hp; exact absurd hp (by decide)
      · exact (bottleneck5_ne_nil_iff s).mp (List.ne_nil_of_mem hf)
  · rintro ⟨q, hq, hgt⟩
    have hb5 : bottleneck5 s = [finding5 q] := by
      rw [bottleneck5_num s q hq, if_pos hgt]
    dsimp only [identify_bottlenecks]
    split
    · rename_i hE
      exfalso
      rw [List.isEmpty_iff] at hE
      simp [List.append_eq_nil, hb5] at hE
    · simp only [List.any_append, Bool.or_eq_true]
      refine Or.inr ?_
      rw [hb5]
      simp [finding5]

/-- C9: on a summary whose metrics are all within thresholds (no slow
requests, at most 80 total requests, no error requests, mean duration at
most 300 ms, FCP not captured or at most 1800 ms) the engine returns
exactly the single no-issue finding; and the no-issue finding only ever
appears as the sole element of the output. -/
theorem C9_quiet_summary_no_issue :
    (∀ (s : SummaryStatistics) (t q : ℚ),
       s.slowRequests = PyVal.num 0 →
       s.totalRequests = PyVal.num t → t ≤ 80 →
       s.errorRequests = PyVal.num 0 →
       s.avgTime = PyVal.num q → q ≤ 300 →
       (s.fcp = PyVal.str "未捕获" ∨ ∃ r : ℚ, s.fcp = PyVal.num r ∧ r ≤ 1800) →
       identify_bottlenecks s = [noIssueFinding]) ∧
    (∀ s : SummaryStatistics, noIssueFinding ∈ identify_bottlenecks s →
       identify_bottlenecks s = [noIssueFinding]) := by
  constructor
  · intro s t q hslow htot htle herr havg havgle hfcp
    have e1 : bottleneck1 s = [] := by rw [bottleneck1_num s 0 hslow]; norm_num
    have e2 : bottleneck2 s = [] := by
      rw [bottleneck2_num s t htot, if_neg (not_lt.mpr htle)]
    have e3 : bottleneck3 s = [] := by rw [bottleneck3_num s 0 herr]; norm_num
    have e4 : bottleneck4 s = [] := by
      rw [bottleneck4_num s q havg, if_neg (not_lt.mpr havgle)]
    have e5 : bottleneck5 s = [] := by
      rcases hfcp with hf | ⟨r, hr, hrle⟩
      · exact bottleneck5_str s _ hf
      · rw [bottleneck5_num s r hr, if_neg (not_lt.mpr hrle)]
    dsimp only [identify_bottlenecks]
    rw [e1, e2, e3, e4, e5]
    rfl
  · intro s hmem
    dsimp only [identify_bottlenecks] at hmem ⊢
    split at hmem <;> rename_i hcond
    · rw [if_pos hcond]
    · exfalso
      simp only [List.mem_append] at hmem
      rcases hmem with ((((h1 | h2) | h3) | h4) | h5)
      · exact absurd (mem_bottleneck1_btype h1) (by decide)
      · exact absurd (mem_bottleneck2_btype h2) (by decide)
      · exact absurd (mem_bottleneck3_btype h3) (by decide)
      · exact absurd (mem_bottleneck4_btype h4) (by decide)
      · exact absurd (mem_bottleneck5_btype h5) (by decide)

/-- Witness for C9: the concrete quiet summary yields exactly the
no-issue finding. -/
theorem C9_quiet_summary_no_issue_witness :
    identify_bottlenecks baseSummary = [noIssueFinding] :=
  C9_quiet_summary_no_issue.1 baseSummary 0 0 rfl rfl (by norm_num) rfl rfl
    (by norm_num) (Or.inl rfl)

/-- C10: for each of the four count/mean metrics, a string-valued cell
(such as a degraded placeholder) makes the engine behave exactly as if the
metric were 0 — the rule neither fires nor fails — and the engine always
returns a non-empty, well-formed findings list. -/
theorem C10_string_metrics_treated_as_zero :
    (∀ (s : SummaryStatistics) (x : String),
       identify_bottlenecks { s with slowRequests := PyVal.str x } =
         identify_bottlenecks { s with slowRequests := PyVal.num 0 }) ∧
    (∀ (s : SummaryStatistics) (x : String),
       identify_bottlenecks { s with totalRequests := PyVal.str x } =
         identify_bottlenecks { s with totalRequests := PyVal.num 0 }) ∧
    (∀ (s : SummaryStatistics) (x : String),
       identify_bottlenecks { s with errorRequests := PyVal.str x } =
         identify_bottlenecks { s with errorRequests := PyVal.num 0 }) ∧
    (∀ (s : SummaryStatistics) (x : String),
       identify_bottlenecks { s with avgTime := PyVal.str x } =
         identify_bottlenecks { s with avgTime := PyVal.num 0 }) ∧
    (∀ s : SummaryStatistics, identify_bottlenecks s ≠ []) := by
  refine ⟨?_, ?_, ?_, ?_, ?_⟩
  · intro s x
    have ea : bottleneck1 { s with slowRequests := PyVal.str x } = [] :=
      bottleneck1_str _ x rfl
    have eb : bottleneck1 { s with slowRequests := PyVal.num 0 } = [] := by
      rw [bottleneck1_num _ 0 rfl]; norm_num
    have e2 : bottleneck2 { s with slowRequests := PyVal.str x } = bottleneck2 s := rfl
    have e2' : bottleneck2 { s with slowRequests := PyVal.num 0 } = bottleneck2 s := rfl
    have e3 : bottleneck3 { s with slowRequests := PyVal.str x } = bottleneck3 s := rfl
    have e3' : bottleneck3 { s with slowRequests := PyVal.num 0 } = bottleneck3 s := rfl
    have e4 : bottleneck4 { s with slowRequests := PyVal.str x } = bottleneck4 s := rfl
    have e4' : bottleneck4 { s with slowRequests := PyVal.num 0 } = bottleneck4 s := rfl
    have e5 : bottleneck5 { s with slowRequests := PyVal.str x } = bottleneck5 s := rfl
    have e5' : bottleneck5 { s with slowRequests := PyVal.num 0 } = bottleneck5 s := rfl
    unfold identify_bottlenecks
    rw [ea, eb, e2, e2', e3, e3', e4, e4', e5, e5']
  · intro s x
    have ea : bottleneck2 { s with totalRequests := PyVal.str x } = [] :=
      bottleneck2_str _ x rfl
    have eb : bottleneck2 { s with totalRequests := PyVal.num 0 } = [] := by
      rw [bottleneck2_num _ 0 rfl]; norm_num
    have e1 : bottleneck1 { s with totalRequests := PyVal.str x } = bottleneck1 s := rfl
    have e1' : bottleneck1 { s with totalRequests := PyVal.num 0 } = bottleneck1 s := rfl
    have e3 : bottleneck3 { s with totalRequests := PyVal.str x } = bottleneck3 s := rfl
    have e3' : bottleneck3 { s with totalRequests := PyVal.num 0 } = bottleneck3 s := rfl
    have e4 : bottleneck4 { s with totalRequests := PyVal.str x } = bottleneck4 s := rfl
    have e4' : bottleneck4 { s with totalRequests := PyVal.num 0 } = bottleneck4 s := rfl
    have e5 : bottleneck5 { s with totalRequests := PyVal.str x } = bottleneck5 s := rfl
    have e5' : bottleneck5 { s with totalRequests := PyVal.num 0 } = bottleneck5 s := rfl
    unfold identify_bottlenecks
    rw [ea, eb, e1, e1', e3, e3', e4, e4', e5, e5']
  · intro s x
    have ea : bottleneck3 { s with errorRequests := PyVal.str x } = [] :=
      bottleneck3_str _ x rfl
    have eb : bottleneck3 { s with errorRequests := PyVal.num 0 } = [] := by
      rw [bottleneck3_num _ 0 rfl]; norm_num
    have e1 : bottleneck1 { s with errorRequests := PyVal.str x } = bottleneck1 s := rfl
    have e1' : bottleneck1 { s with errorRequests := PyVal.num 0 } = bottleneck1 s := rfl
    have e2 : bottleneck2 { s with errorRequests := PyVal.str x } = bottleneck2 s := rfl
    have e2' : bottleneck2 { s with errorRequests := PyVal.num 0 } = bottleneck2 s := rfl
    have e4 : bottleneck4 { s with errorRequests := PyVal.str x } = bottleneck4 s := rfl
    have e4' : bottleneck4 { s with errorRequests := PyVal.num 0 } = bottleneck4 s := rfl
    have e5 : bottleneck5 { s with errorRequests := PyVal.str x } = bottleneck5 s := rfl
    have e5' : bottleneck5 { s with errorRequests := PyVal.num 0 } = bottleneck5 s := rfl
    unfold identify_bottlenecks
    rw [ea, eb, e1, e1', e2, e2', e4, e4', e5, e5']
  · intro s x
    have ea : bottleneck4 { s with avgTime := PyVal.str x } = [] :=
      bottleneck4_str _ x rfl
    have eb : bottleneck4 { s with avgTime := PyVal.num 0 } = [] := by
      rw [bottleneck4_num _ 0 rfl]; norm_num
    have e1 : bottleneck1 { s with avgTime := PyVal.str x } = bottleneck1 s := rfl
    have e1' : bottleneck1 { s with avgTime := PyVal.num 0 } = bottleneck1 s := rfl
    have e2 : bottleneck2 { s with avgTime := PyVal.str x } = bottleneck2 s := rfl
    have e2' : bottleneck2 { s with avgTime := PyVal.num 0 } = bottleneck2 s := rfl
    have e3 : bottleneck3 { s with avgTime := PyVal.str x } = bottleneck3 s := rfl
    have e3' : bottleneck3 { s with avgTime := PyVal.num 0 } = bottleneck3 s := rfl
    have e5 : bottleneck5 { s with avgTime := PyVal.str x } = bottleneck5 s := rfl
    have e5' : bottleneck5 { s with avgTime := PyVal.num 0 } = bottleneck5 s := rfl
    unfold identify_bottlenecks
    rw [ea, eb, e1, e1', e2, e2', e3, e3', e5, e5']
  · intro s
    dsimp only [identify_bottlenecks]
    split
    · simp
    · rename_i hcond
      rw [ne_eq, ← List.isEmpty_iff]
      exact hcond

/-- Unfolding lemma for the substring scan. -/
theorem occursSub_cons (sub : List Char) (c : Char) (cs : List Char) :
    occursSub sub (c :: cs) = (sub.isPrefixOf (c :: cs) || occursSub sub cs) := rfl

/-- Unfolding lemma for `split1` on a cons. -/
theorem split1_eq_cons (x c : Char) (rest : List Char) :
    split1 x (c :: rest) =
      if c = x then [] :: split1 x rest
      else
        match split1 x rest with
        | [] => [[c]]
        | p :: ps => (c :: p) :: ps := rfl

/-- Unfolding lemma for `split2` on two leading characters. -/
theorem split2_eq_cons (x y c d : Char) (rest : List Char) :
    split2 x y (c :: d :: rest) =
      if c = x ∧ d = y then [] :: split2 x y rest
      else
        match split2 x y (d :: rest) with
        | [] => [[c]]
        | p :: ps => (c :: p) :: ps := rfl

/-- `split1` never returns the empty list (Python `split` always yields at
least one part). -/
theorem split1_ne_nil (x : Char) (cs : List Char) : split1 x cs ≠ [] := by
  induction cs with
  | nil => simp [split1]
  | cons c rest ih =>
    rw [split1_eq_cons]
    split
    · simp
    · cases hs : split1 x rest <;> simp

/-- `split2` never returns the empty list. -/
theorem split2_ne_nil (x y : Char) (cs : List Char) : split2 x y cs ≠ [] := by
  induction cs with
  | nil => simp [split2]
  | cons a tail ih =>
    cases tail with
    | nil => simp [split2]
    | cons b rest =>
      rw [split2_eq_cons]
      split
      · simp
      · cases hs : split2 x y (b :: rest) <;> simp

/-- A string without an occurrence of the two-character separator is
returned whole by the split. -/
theorem split2_not_occurs {x y : Char} : ∀ {cs : List Char},
    occursSub [x, y] cs = false → split2 x y cs = [cs] := by
  intro cs
  induction cs with
  | nil => intro _; rfl
  | cons c tail ih =>
    intro h
    cases tail with
    | nil => rfl
    | cons b rest =>
      rw [occursSub_cons, Bool.or_eq_false_iff] at h
      obtain ⟨hp, ht⟩ := h
      have hcond : ¬(c = x ∧ b = y) := by
        rintro ⟨rfl, rfl⟩
        simp [List.isPrefixOf] at hp
      rw [split2_eq_cons, if_neg hcond, ih ht]

/-- When the prefix `a` admits no separator occurrence (including none
straddling into the separator: `a ++ [x]` is clean), the left-to-right
scan cuts exactly at the explicit separator. -/
theorem split2_boundary (x y : Char) : ∀ (a b : List Char),
    occursSub [x, y] (a ++ [x]) = false →
    split2 x y (a ++ x :: y :: b) = a :: split2 x y b := by
  intro a
  induction a with
  | nil =>
    intro b _
    show split2 x y (x :: y :: b) = [] :: split2 x y b
    rw [split2_eq_cons, if_pos ⟨rfl, rfl⟩]
  | cons c a' ih =>
    intro b h
    rw [List.cons_append, occursSub_cons, Bool.or_eq_false_iff] at h
    obtain ⟨hp, ht⟩ := h
    cases a' with
    | nil =>
      have hcond : ¬(c = x ∧ x = y) := by
        rintro ⟨rfl, rfl⟩
        simp [List.isPrefixOf] at hp
      have hbase : split2 x y (x :: y :: b) = [] :: split2 x y b := by
        rw [split2_eq_cons, if_pos ⟨rfl, rfl⟩]
      show split2 x y (c :: x :: y :: b) = [c] :: split2 x y b
      rw [split2_eq_cons, if_neg hcond, hbase]
    | cons d a'' =>
      have hcond : ¬(c = x ∧ d = y) := by
        rintro ⟨rfl, rfl⟩
        simp [List.isPrefixOf] at hp
      have hih := ih b ht
      show split2 x y (c :: d :: (a'' ++ x :: y :: b)) = (c :: d :: a'') :: split2 x y b
      rw [split2_eq_cons, if_neg hcond]
      have hih' : split2 x y (d :: (a'' ++ x :: y :: b)) = (d :: a'') :: split2 x y b := by
        rw [← List.cons_append]
        exact hih
      rw [hih']

/-- A list that visibly contains the separator tests positive. -/
theorem occursSub_append_sep (x y : Char) (a b : List Char) :
    occursSub [x, y] (a ++ x :: y :: b) = true := by
  induction a with
  | nil =>
    show occursSub [x, y] (x :: y :: b) = true
    rw [occursSub_cons]
    simp [List.isPrefixOf]
  | cons c a' ih =>
    show occursSub [x, y] (c :: (a' ++ x :: y :: b)) = true
    rw [occursSub_cons, ih, Bool.or_true]

/-- The head of a one-character split is the prefix before the first
occurrence of that character. -/
theorem split1_headD (x : Char) (cs : List Char) :
    (split1 x cs).headD [] = cs.takeWhile (fun c => c != x) := by
  induction cs with
  | nil => rfl
  | cons c rest ih =>
    rw [split1_eq_cons]
    by_cases hc : c = x
    · rw [if_pos hc]
      subst hc
      simp [List.takeWhile_cons]
    · rw [if_neg hc]
      obtain ⟨p, ps, hps⟩ := List.exists_cons_of_ne_nil (split1_ne_nil x rest)
      rw [hps]
      have htw : List.takeWhile (fun c' => c' != x) (c :: rest) =
          c :: List.takeWhile (fun c' => c' != x) rest := by
        simp [List.takeWhile_cons, hc]
      rw [htw]
      have hp : p = List.takeWhile (fun c' => c' != x) rest := by
        rw [← ih, hps]
        rfl
      rw [List.headD_cons, hp]

/-- C5 counterexample: the claim reads the domain off the FIRST occurrence
of `//`, but the source takes `split("//")[-1]`, the LAST split segment.
On `http://a.com//x` the code yields `x` while the spec's first-occurrence
reading yields `a.com`. -/
theorem C5_domain_counterexample :
    extractDomain "http://a.com//x" = "x" ∧
    specDomainFirstSplit "http://a.com//x" = "a.com" ∧
    ("x" : String) ≠ "a.com" := by
  refine ⟨?_, ?_, ?_⟩ <;> decide

/-- C5 (amended): the Request Record's domain is `extractDomain` of the
entry URL, which takes the LAST segment of the left-to-right split on
`//`, truncated before its next `/`; when the URL has no `//` the domain
is the literal `"unknown"`; and when the URL has exactly one (clean)
occurrence of `//` this agrees with the spec's first-occurrence reading:
the text between that separator and the next `/`.  Domain extraction is a
total function (never throws). -/
theorem C5_domain_amended (i : Nat) (e : RawEntry) :
    ((processEntry i e).domain = extractDomain (entryUrl e)) ∧
    (occursSub ['/', '/'] (entryUrl e).toList = false →
       (processEntry i e).domain = "unknown") ∧
    (∀ a b : List Char,
       (entryUrl e).toList = a ++ '/' :: '/' :: b →
       occursSub ['/', '/'] (a ++ ['/']) = false →
       occursSub ['/', '/'] b = false →
       (processEntry i e).domain = String.mk (b.takeWhile (fun c => c != '/'))) := by
  have hd : (processEntry i e).domain = extractDomain (entryUrl e) := rfl
  refine ⟨hd, ?_, ?_⟩
  · intro h
    rw [hd]
    unfold extractDomain
    rw [h]
    simp
  · intro a b hdec hA hB
    have hocc : occursSub ['/', '/'] (entryUrl e).toList = true := by
      rw [hdec]
      exact occursSub_append_sep '/' '/' a b
    have hsp : split2 '/' '/' (entryUrl e).toList = [a, b] := by
      rw [hdec, split2_boundary '/' '/' a b hA, split2_not_occurs hB]
    rw [hd]
    unfold extractDomain
    rw [if_pos hocc, hsp]
    have hlast : ([a, b] : List (List Char)).getLastD [] = b := rfl
    rw [hlast, split1_headD]

/-- Witness for the amended C5: a well-formed single-`//` URL yields the
host between the separator and the next slash. -/
theorem C5_domain_amended_witness :
    (processEntry 1 entC5w).domain = "ex.com" := by
  have h := (C5_domain_amended 1 entC5w).2.2 "https:".toList "ex.com/path".toList
    (by decide) (by decide) (by decide)
  rw [h]
  decide
